import Mathlib

/-!
Verification of the node-level generation pipeline of `write-the`
(`src/write_the/cli/main.py`).

The CLI `tests` command is embedded as a pure state-transition function:
paths are lists of components (mirroring `pathlib.Path.parts`), the file
system is an association list from paths to file contents, and the external
generation service is an oracle `FPath → GenOutcome`.  The `docs` command's
option defaults and its file-selection/assertion step are embedded as well.

Helpers that live outside the provided sources (`write_the.utils.
list_python_files` and the context/background assembly of
`write_the.commands`) are modelled from the specification and marked as
such in their doc comments.
-/

namespace WriteThe

/-- A file-system path, as its list of components (like `pathlib.Path.parts`
for a relative path). -/
abbrev FPath := List String

/-- Index of the last occurrence of a dot in a list of characters, if any. -/
def lastDotIdx : List Char → Option Nat
  | [] => none
  | c :: cs =>
    match lastDotIdx cs with
    | some i => some (i + 1)
    | none => if c = '.' then some 0 else none

/-- The stem of a file name, following `pathlib.PurePath.stem`: everything
before the final dot, unless that dot is the first character or the last
character of the name. -/
def pStem (name : String) : String :=
  let cs := name.toList
  match lastDotIdx cs with
  | none => name
  | some i => if 0 < i && i + 1 < cs.length then String.mk (cs.take i) else name

/-- The suffix of a file name, following `pathlib.PurePath.suffix`: the final
dot and what follows it, unless that dot is the first character or the last
character of the name. -/
def pSuffix (name : String) : String :=
  let cs := name.toList
  match lastDotIdx cs with
  | none => ""
  | some i => if 0 < i && i + 1 < cs.length then String.mk (cs.drop i) else ""

/-- The final component of a path (like `pathlib.Path.name`). -/
def pname (p : FPath) : String := p.getLastD ""

/-- A file system: an association list from paths to file contents. -/
abbrev FileSys := List (FPath × String)

/-- Whether a file exists at a path (`Path.exists`). -/
def fsExists (fs : FileSys) (p : FPath) : Bool := fs.any (fun e => e.1 == p)

/-- Writing a file: replaces any previous contents at the path. -/
def fsWrite (fs : FileSys) (p : FPath) (c : String) : FileSys :=
  (p, c) :: fs.filter (fun e => e.1 != p)

/-- Whether a file name ends in the python extension, as the eligibility
test of the file-selection collaborator. -/
def endsWithPy (s : String) : Bool := List.isSuffixOf [ '.', 'p', 'y' ] s.toList

/-- Modelled from the spec: the file-selection collaborator
(`write_the.utils.list_python_files`, whose source is not provided) —
given a root path, returns the eligible (python) source files below it. -/
def list_python_files (fs : FileSys) (root : FPath) : List FPath :=
  (fs.map Prod.fst).filter (fun p => List.isPrefixOf root p && endsWithPy (pname p))

/-- The test `name.startswith("_")` of `main.py` line 200: whether the first
character is an underscore. -/
def startsWithUnderscore (s : String) : Bool :=
  match s.toList with
  | [] => false
  | c :: _ => c = '_'

/-- The run configuration of the `tests` command, in the order the options
are declared in `main.py` (`save`, `pretty`, `group`, `force`, `empty`). -/
structure Cfg where
  save : Bool
  pretty : Bool
  group : Bool
  force : Bool
  empty : Bool
deriving DecidableEq

/-- Outcome of one call to the external generation service
(`write_the_tests`): a successful text, the `InvalidInput` parse failure
raised by `black`, or any other service-level exception. -/
inductive GenOutcome
  | ok (text : String)
  | invalidInput
  | serviceError
deriving DecidableEq

/-- One line of printed output: plain (`typer.echo`) or syntax-highlighted
(`rich` `Syntax`/`Console`). -/
inductive Shown
  | plain (s : String)
  | pretty (s : String)
deriving DecidableEq

/-- Observable state of a `tests` run: the file system, the source files a
generation request was dispatched for, the per-file status lines printed
(`true` marks a failure line), and the text printed to stdout. -/
structure St where
  fs : FileSys
  dispatched : List FPath
  status : List (FPath × Bool)
  shown : List Shown
deriving DecidableEq

/-- The list `parts` of `main.py` line 202-203: the path components strictly
between the first component and the file name, prefixed with `test`. -/
def testParts (file : FPath) : List String := "test" :: (file.drop 1).dropLast

/-- The derived test-file name of `main.py` line 204:
`test_<underscored middle components>_<stem>.py`. -/
def testFileName (file : FPath) : String :=
  String.intercalate "_" (testParts file) ++ "_" ++ pStem (pname file) ++ ".py"

/-- The relative `test_file` of `main.py` lines 204-207: the bare derived
name in flat mode, or the `parts` directories followed by the derived name
in grouped mode. -/
def test_file (group : Bool) (file : FPath) : FPath :=
  if group then testParts file ++ [testFileName file] else [testFileName file]

/-- The absolute `test_file_path` of `main.py` line 208: `tests_dir / test_file`. -/
def test_file_path (testsDir : FPath) (group : Bool) (file : FPath) : FPath :=
  testsDir ++ test_file group file

/-- Modelled from the spec: the membership test `test_file in current_tests`
of `main.py` line 212 — per the spec, a skip fires when a file of the same
derived name already exists anywhere in the pre-run test-output tree. -/
def inCurrentTests (currentTests : List FPath) (name : String) : Bool :=
  currentTests.any (fun p => pname p == name)

/-- The idempotency-gate condition of `main.py` lines 209-213:
the derived path exists and the run is saving without force, or the derived
name is in the pre-run listing of the tests directory. -/
def skip_condition (cfg : Cfg) (fs : FileSys) (currentTests : List FPath)
    (testsDir file : FPath) : Bool :=
  (fsExists fs (test_file_path testsDir cfg.group file) && (!cfg.force && cfg.save))
    || inCurrentTests currentTests (testFileName file)

/-- The tail of one loop iteration of `main.py` lines 228-245, after the
generation call returned: print the status line, drop failed results unless
`empty` saving is on, then save the result or print it (pretty or plain). -/
def finish (cfg : Cfg) (testsDir : FPath) (multi : Bool) (file : FPath)
    (st : St) (failed : Bool) (result : String) : St :=
  let st1 := if multi || cfg.save || failed then
      { st with status := st.status ++ [(file, failed)] } else st
  if failed && !cfg.empty then st1
  else if cfg.save then
    { st1 with fs := fsWrite st1.fs (test_file_path testsDir cfg.group file) result }
  else if cfg.pretty then { st1 with shown := st1.shown ++ [Shown.pretty result] }
  else { st1 with shown := st1.shown ++ [Shown.plain result] }

/-- One iteration of the `for file in files` loop of `main.py` lines
199-245.  Returns the new state and whether an uncaught exception was
raised by the generation call (`true` aborts the run). -/
def processFile (cfg : Cfg) (gen : FPath → GenOutcome) (currentTests : List FPath)
    (testsDir : FPath) (multi : Bool) (st : St) (file : FPath) : St × Bool :=
  if startsWithUnderscore (pStem (pname file)) then (st, false)
  else if skip_condition cfg st.fs currentTests testsDir file then (st, false)
  else
    let st1 := { st with dispatched := st.dispatched ++ [file] }
    match gen file with
    | GenOutcome.serviceError => (st1, true)
    | GenOutcome.ok text => (finish cfg testsDir multi file st1 false text, false)
    | GenOutcome.invalidInput => (finish cfg testsDir multi file st1 true "", false)

/-- The whole `for file in files` loop: files are processed in order, and an
uncaught exception from the generation call aborts the remaining files. -/
def runFiles (cfg : Cfg) (gen : FPath → GenOutcome) (currentTests : List FPath)
    (testsDir : FPath) (multi : Bool) : List FPath → St → St × Bool
  | [], st => (st, false)
  | f :: rest, st =>
    match processFile cfg gen currentTests testsDir multi st f with
    | (st1, true) => (st1, true)
    | (st1, false) => runFiles cfg gen currentTests testsDir multi rest st1

/-- File selection shared by `docs` (lines 100-104) and `tests` (lines
194-198): a directory is listed recursively; a single file must have the
`.py` suffix, else the `assert` fails with an `AssertionError`. -/
def select_files (fs0 : FileSys) (isDir : Bool) (file : FPath) :
    Except String (List FPath) :=
  if isDir then Except.ok (list_python_files fs0 file)
  else if pSuffix (pname file) == ".py" then Except.ok [file]
  else Except.error "AssertionError"

/-- The `tests` command (lines 154-245): list the pre-run tests directory,
select the input files (possibly failing the suffix assertion), then run the
per-file loop on the initial state. -/
def testsCmd (fs0 : FileSys) (cfg : Cfg) (gen : FPath → GenOutcome)
    (isDir : Bool) (file testsDir : FPath) : Except String (St × Bool) :=
  let currentTests := list_python_files fs0 testsDir
  match select_files fs0 isDir file with
  | Except.error e => Except.error e
  | Except.ok files =>
      Except.ok (runFiles cfg gen currentTests testsDir (files.length > 1) files
        (St.mk fs0 [] [] []))

/-- The option record of the `docs` command, in declaration order
(`main.py` lines 58-95). -/
structure DocsOptions where
  nodes : List String
  save : Bool
  pretty : Bool
  context : Bool
  background : Bool
  force : Bool
  batch : Bool
deriving DecidableEq

/-- The default values of the `docs` options as declared in `main.py`:
`nodes=None`, `save=False`, `pretty=False`, `context=False`,
`background=True`, `force=False`, `batch=False`. -/
def docsDefault : DocsOptions := DocsOptions.mk [] false false false true false false

/-- Modelled from the spec: the Context Assembler of `write_the.commands`
(source not provided) — `context_nodes` is the sibling nodes when the
with-context option is set, otherwise empty. -/
def context_nodes (opts : DocsOptions) (siblings : List String) : List String :=
  if opts.context then siblings else []

/-- Modelled from the spec: the Background Assembler of `write_the.commands`
(source not provided) — `background_text` is the rest of the file's text
when the with-background option is set, otherwise omitted. -/
def background_text (opts : DocsOptions) (bg : String) : Option String :=
  if opts.background then some bg else none

/-- The file-selection and assertion step of the `docs` command (`main.py`
lines 100-104); the spawned per-file tasks are outside the provided
sources. -/
def docsSelect (fs0 : FileSys) (isDir : Bool) (file : FPath) :
    Except String (List FPath) :=
  select_files fs0 isDir file

deriving instance DecidableEq for Except

/-! Helper lemmas about one loop iteration. -/

theorem finish_dispatched (cfg : Cfg) (td : FPath) (multi : Bool) (file : FPath)
    (st : St) (failed : Bool) (result : String) :
    (finish cfg td multi file st failed result).dispatched = st.dispatched := by
  unfold finish
  cases h1 : (multi || cfg.save || failed) <;> cases h2 : (failed && !cfg.empty) <;>
    cases h3 : cfg.save <;> cases h4 : cfg.pretty <;> simp [h1, h2, h3, h4]

theorem processFile_private (cfg : Cfg) (gen : FPath → GenOutcome) (ct : List FPath)
    (td : FPath) (multi : Bool) (st : St) (file : FPath)
    (h : startsWithUnderscore (pStem (pname file)) = true) :
    processFile cfg gen ct td multi st file = (st, false) := by
  simp [processFile, h]

theorem processFile_skip (cfg : Cfg) (gen : FPath → GenOutcome) (ct : List FPath)
    (td : FPath) (multi : Bool) (st : St) (file : FPath)
    (hpriv : startsWithUnderscore (pStem (pname file)) = false)
    (hskip : skip_condition cfg st.fs ct td file = true) :
    processFile cfg gen ct td multi st file = (st, false) := by
  simp [processFile, hpriv, hskip]

theorem processFile_dispatch (cfg : Cfg) (gen : FPath → GenOutcome) (ct : List FPath)
    (td : FPath) (multi : Bool) (st : St) (file : FPath)
    (hpriv : startsWithUnderscore (pStem (pname file)) = false)
    (hskip : skip_condition cfg st.fs ct td file = false) :
    (processFile cfg gen ct td multi st file).1.dispatched = st.dispatched ++ [file] := by
  simp only [processFile, hpriv, hskip, Bool.false_eq_true, if_false]
  cases gen file <;> simp [finish_dispatched]

theorem processFile_ok (cfg : Cfg) (gen : FPath → GenOutcome) (ct : List FPath)
    (td : FPath) (multi : Bool) (st : St) (file : FPath) (t : String)
    (hpriv : startsWithUnderscore (pStem (pname file)) = false)
    (hskip : skip_condition cfg st.fs ct td file = false)
    (hgen : gen file = GenOutcome.ok t) (hsave : cfg.save = true) :
    processFile cfg gen ct td multi st file
      = ({ st with dispatched := st.dispatched ++ [file],
                   status := st.status ++ [(file, false)],
                   fs := fsWrite st.fs (test_file_path td cfg.group file) t }, false) := by
  simp [processFile, hpriv, hskip, hgen, finish, hsave]

theorem processFile_invalid_noempty (cfg : Cfg) (gen : FPath → GenOutcome)
    (ct : List FPath) (td : FPath) (multi : Bool) (st : St) (file : FPath)
    (hpriv : startsWithUnderscore (pStem (pname file)) = false)
    (hskip : skip_condition cfg st.fs ct td file = false)
    (hgen : gen file = GenOutcome.invalidInput) (hempty : cfg.empty = false) :
    processFile cfg gen ct td multi st file
      = ({ st with dispatched := st.dispatched ++ [file],
                   status := st.status ++ [(file, true)] }, false) := by
  simp [processFile, hpriv, hskip, hgen, finish, hempty]

theorem processFile_invalid_empty_save (cfg : Cfg) (gen : FPath → GenOutcome)
    (ct : List FPath) (td : FPath) (multi : Bool) (st : St) (file : FPath)
    (hpriv : startsWithUnderscore (pStem (pname file)) = false)
    (hskip : skip_condition cfg st.fs ct td file = false)
    (hgen : gen file = GenOutcome.invalidInput)
    (hempty : cfg.empty = true) (hsave : cfg.save = true) :
    processFile cfg gen ct td multi st file
      = ({ st with dispatched := st.dispatched ++ [file],
                   status := st.status ++ [(file, true)],
                   fs := fsWrite st.fs (test_file_path td cfg.group file) "" }, false) := by
  simp [processFile, hpriv, hskip, hgen, finish, hempty, hsave]

theorem processFile_service_error (cfg : Cfg) (gen : FPath → GenOutcome)
    (ct : List FPath) (td : FPath) (multi : Bool) (st : St) (file : FPath)
    (hpriv : startsWithUnderscore (pStem (pname file)) = false)
    (hskip : skip_condition cfg st.fs ct td file = false)
    (hgen : gen file = GenOutcome.serviceError) :
    processFile cfg gen ct td multi st file
      = ({ st with dispatched := st.dispatched ++ [file] }, true) := by
  simp [processFile, hpriv, hskip, hgen]

theorem processFile_dispatched_cases (cfg : Cfg) (gen : FPath → GenOutcome)
    (ct : List FPath) (td : FPath) (multi : Bool) (st : St) (file : FPath) :
    (processFile cfg gen ct td multi st file).1.dispatched = st.dispatched ∨
    (processFile cfg gen ct td multi st file).1.dispatched = st.dispatched ++ [file] := by
  by_cases h1 : startsWithUnderscore (pStem (pname file)) = true
  · left; simp [processFile_private _ _ _ _ _ _ _ h1]
  · by_cases h2 : skip_condition cfg st.fs ct td file = true
    · left
      simp [processFile_skip _ _ _ _ _ _ _ (Bool.not_eq_true _ ▸ h1) h2]
    · right
      exact processFile_dispatch _ _ _ _ _ _ _ (Bool.not_eq_true _ ▸ h1)
        (Bool.not_eq_true _ ▸ h2)

theorem runFiles_nil (cfg : Cfg) (gen : FPath → GenOutcome) (ct : List FPath)
    (td : FPath) (multi : Bool) (st : St) :
    runFiles cfg gen ct td multi [] st = (st, false) := rfl

theorem runFiles_cons_step (cfg : Cfg) (gen : FPath → GenOutcome) (ct : List FPath)
    (td : FPath) (multi : Bool) (f : FPath) (rest : List FPath) (st st1 : St)
    (h : processFile cfg gen ct td multi st f = (st1, false)) :
    runFiles cfg gen ct td multi (f :: rest) st
      = runFiles cfg gen ct td multi rest st1 := by
  simp only [runFiles, h]

theorem runFiles_cons_abort (cfg : Cfg) (gen : FPath → GenOutcome) (ct : List FPath)
    (td : FPath) (multi : Bool) (f : FPath) (rest : List FPath) (st st1 : St)
    (h : processFile cfg gen ct td multi st f = (st1, true)) :
    runFiles cfg gen ct td multi (f :: rest) st = (st1, true) := by
  simp only [runFiles, h]

/-! Helper lemmas about derived paths and the test-directory listing. -/

theorem isPrefixOf_append_self (l t : List String) :
    List.isPrefixOf l (l ++ t) = true := by
  rw [List.isPrefixOf_iff_prefix]
  exact List.prefix_append l t

theorem pname_concat (l : List String) (x : String) : pname (l ++ [x]) = x := by
  simp [pname, List.getLastD_concat]

theorem pname_test_file_path (td : FPath) (g : Bool) (f : FPath) :
    pname (test_file_path td g f) = testFileName f := by
  unfold test_file_path test_file
  cases g
  · simp only [Bool.false_eq_true, if_false]
    exact pname_concat td (testFileName f)
  · simp only [if_true]
    rw [← List.append_assoc]
    exact pname_concat (td ++ testParts f) (testFileName f)

theorem endsWithPy_append (s : String) : endsWithPy (s ++ ".py") = true := by
  unfold endsWithPy
  have h : (s ++ ".py").toList = s.toList ++ [ '.', 'p', 'y' ] := by
    simp [String.toList, String.data_append]
  rw [h, List.isSuffixOf_iff_suffix]
  exact List.suffix_append _ _

theorem endsWithPy_testFileName (f : FPath) : endsWithPy (testFileName f) = true := by
  unfold testFileName
  exact endsWithPy_append _

theorem inCurrentTests_after_write (fs : FileSys) (td : FPath) (g : Bool) (f : FPath)
    (c : String) :
    inCurrentTests (list_python_files (fsWrite fs (test_file_path td g f) c) td)
      (testFileName f) = true := by
  unfold inCurrentTests list_python_files fsWrite
  simp only [List.map_cons, List.filter_cons]
  rw [test_file_path, isPrefixOf_append_self, ← test_file_path, pname_test_file_path,
    endsWithPy_testFileName]
  simp [pname_test_file_path]

/-! Helper lemmas about the pretty option. -/

theorem skip_condition_pretty (cfg : Cfg) (p : Bool) (fs : FileSys) (ct : List FPath)
    (td file : FPath) :
    skip_condition { cfg with pretty := p } fs ct td file
      = skip_condition cfg fs ct td file := rfl

theorem processFile_pretty (cfg : Cfg) (p q : Bool) (gen : FPath → GenOutcome)
    (ct : List FPath) (td : FPath) (multi : Bool) (st : St) (file : FPath)
    (hsave : cfg.save = true) :
    processFile { cfg with pretty := p } gen ct td multi st file
      = processFile { cfg with pretty := q } gen ct td multi st file := by
  unfold processFile
  simp only [skip_condition_pretty]
  cases gen file <;> unfold finish <;> simp [hsave]

theorem runFiles_pretty (cfg : Cfg) (p q : Bool) (gen : FPath → GenOutcome)
    (ct : List FPath) (td : FPath) (multi : Bool) (files : List FPath) (st : St)
    (hsave : cfg.save = true) :
    runFiles { cfg with pretty := p } gen ct td multi files st
      = runFiles { cfg with pretty := q } gen ct td multi files st := by
  induction files generalizing st with
  | nil => rfl
  | cons f rest ih =>
    have hpf := processFile_pretty cfg p q gen ct td multi st f hsave
    rcases hE : processFile { cfg with pretty := p } gen ct td multi st f with ⟨st1, b⟩
    have hE2 : processFile { cfg with pretty := q } gen ct td multi st f = (st1, b) := by
      rw [← hpf, hE]
    cases b
    · rw [runFiles_cons_step _ _ _ _ _ _ _ _ _ hE, runFiles_cons_step _ _ _ _ _ _ _ _ _ hE2]
      exact ih st1
    · rw [runFiles_cons_abort _ _ _ _ _ _ _ _ _ hE, runFiles_cons_abort _ _ _ _ _ _ _ _ _ hE2]

/-! Claim theorems. -/

/-- C1, counterexample: the claim says `pkg/sub/mod.py` derives
`tests/test_pkg_sub_mod.py` in flat mode and `tests/pkg/sub/test_pkg_sub_mod.py`
in grouped mode; the code instead drops the first path component and prefixes
the grouped subdirectories with `test`, deriving `tests/test_sub_mod.py` and
`tests/test/sub/test_sub_mod.py`. -/
theorem derived_path_counterexample :
    test_file_path ["tests"] false ["pkg", "sub", "mod.py"] = ["tests", "test_sub_mod.py"] ∧
    test_file_path ["tests"] false ["pkg", "sub", "mod.py"] ≠ ["tests", "test_pkg_sub_mod.py"] ∧
    test_file_path ["tests"] true ["pkg", "sub", "mod.py"]
      = ["tests", "test", "sub", "test_sub_mod.py"] ∧
    test_file_path ["tests"] true ["pkg", "sub", "mod.py"]
      ≠ ["tests", "pkg", "sub", "test_pkg_sub_mod.py"] := by
  refine ⟨by decide, by decide, by decide, by decide⟩

/-- C1, amended: for a source file whose parts are a first component `d`,
middle directories `sub` and a file name `name`, the flat derived path is
`tests_dir/test_<underscored sub>_<stem>.py` (the first component `d` is
dropped), and the grouped derived path nests that name under
`tests_dir/test/<sub>`; so `pkg/sub/mod.py` yields `tests/test_sub_mod.py`
flat and `tests/test/sub/test_sub_mod.py` grouped. -/
theorem derived_path_amended (testsDir : FPath) (d : String) (sub : List String)
    (name : String) :
    test_file_path testsDir false (d :: (sub ++ [name]))
      = testsDir ++ [String.intercalate "_" ("test" :: sub) ++ "_" ++ pStem name ++ ".py"] ∧
    test_file_path testsDir true (d :: (sub ++ [name]))
      = testsDir ++ ("test" :: sub)
          ++ [String.intercalate "_" ("test" :: sub) ++ "_" ++ pStem name ++ ".py"] := by
  have hparts : testParts (d :: (sub ++ [name])) = "test" :: sub := by
    simp [testParts]
  have hname : pname (d :: (sub ++ [name])) = name := by
    rw [← List.cons_append]
    exact pname_concat (d :: sub) name
  constructor
  · simp [test_file_path, test_file, testFileName, hparts, hname]
  · simp [test_file_path, test_file, testFileName, hparts, hname]

/-- C2, counterexample: the claim says `force=true` always leads to a
dispatched generation request for a non-private file; but when the derived
test-file name already appears in the pre-run listing of the tests
directory, the file is skipped even with `force=true` — here
`pkg/sub/mod.py` derives `test_sub_mod.py`, which exists under `tests`, so
no request is dispatched and nothing is written. -/
theorem force_counterexample :
    (Cfg.mk true false false true false).force = true ∧
    (testsCmd [(["tests", "test_sub_mod.py"], "")] (Cfg.mk true false false true false)
        (fun _ => GenOutcome.ok "t") false ["pkg", "sub", "mod.py"] ["tests"]).map
        (fun r => (r.1.dispatched, r.1.fs))
      = Except.ok ([], [(["tests", "test_sub_mod.py"], "")]) := by
  refine ⟨rfl, by decide⟩

/-- C2, amended: `force=true` bypasses only the existing-path conjunct of
the idempotency gate: for a non-private file whose derived test-file name is
not in the pre-run tests-directory listing, a generation request is
dispatched regardless of any file already existing at the derived path; a
file whose derived name is in the pre-run listing is still skipped. -/
theorem force_bypasses_existing_path (cfg : Cfg) (gen : FPath → GenOutcome)
    (ct : List FPath) (td : FPath) (multi : Bool) (st : St) (f : FPath)
    (hforce : cfg.force = true)
    (hpriv : startsWithUnderscore (pStem (pname f)) = false)
    (hct : inCurrentTests ct (testFileName f) = false) :
    (processFile cfg gen ct td multi st f).1.dispatched = st.dispatched ++ [f] := by
  have hskip : skip_condition cfg st.fs ct td f = false := by
    simp [skip_condition, hforce, hct]
  exact processFile_dispatch cfg gen ct td multi st f hpriv hskip

/-- C2, witness. -/
theorem force_bypasses_existing_path_witness :
    (Cfg.mk true false false true false).force = true ∧
    startsWithUnderscore (pStem (pname ["pkg", "sub", "mod.py"])) = false ∧
    inCurrentTests [] (testFileName ["pkg", "sub", "mod.py"]) = false ∧
    (processFile (Cfg.mk true false false true false) (fun _ => GenOutcome.ok "t") []
        ["tests"] false (St.mk [(["tests", "test_sub_mod.py"], "")] [] [] [])
        ["pkg", "sub", "mod.py"]).1.dispatched = [] ++ [["pkg", "sub", "mod.py"]] :=
  ⟨rfl, by decide, by decide,
    force_bypasses_existing_path (Cfg.mk true false false true false)
      (fun _ => GenOutcome.ok "t") [] ["tests"] false
      (St.mk [(["tests", "test_sub_mod.py"], "")] [] [] []) ["pkg", "sub", "mod.py"]
      rfl (by decide) (by decide)⟩

/-- C3, counterexample: the claim says both context and background default
to off; but the `docs` command declares `background` with default `True`,
so a default invocation carries the background text. -/
theorem background_default_counterexample :
    docsDefault.background = true ∧
    background_text docsDefault "rest of the file" = some "rest of the file" ∧
    background_text docsDefault "rest of the file" ≠ none := by
  refine ⟨rfl, rfl, by decide⟩

/-- C3, amended: context defaults to off but background defaults to on —
a `docs` invocation that sets neither flag sends no sibling-node context
yet does send the background text. -/
theorem docs_defaults_amended (siblings : List String) (bg : String) :
    docsDefault.context = false ∧ docsDefault.background = true ∧
    context_nodes docsDefault siblings = [] ∧
    background_text docsDefault bg = some bg := by
  refine ⟨rfl, rfl, rfl, rfl⟩

/-- C4: for a non-private file, the idempotency gate skips exactly when the
derived path exists while saving without force, or the derived test-file
name is in the pre-run tests-directory listing; a skipped file leaves the
run state untouched (so no generation request is dispatched), and an
unskipped file has a request dispatched for it. -/
theorem skip_gate_exact (cfg : Cfg) (gen : FPath → GenOutcome) (ct : List FPath)
    (td : FPath) (multi : Bool) (st : St) (f : FPath)
    (hpriv : startsWithUnderscore (pStem (pname f)) = false) :
    (((fsExists st.fs (test_file_path td cfg.group f) && (!cfg.force && cfg.save))
        || inCurrentTests ct (testFileName f)) = true →
      processFile cfg gen ct td multi st f = (st, false)) ∧
    (((fsExists st.fs (test_file_path td cfg.group f) && (!cfg.force && cfg.save))
        || inCurrentTests ct (testFileName f)) = false →
      (processFile cfg gen ct td multi st f).1.dispatched = st.dispatched ++ [f]) := by
  constructor
  · intro h
    exact processFile_skip cfg gen ct td multi st f hpriv h
  · intro h
    exact processFile_dispatch cfg gen ct td multi st f hpriv h

/-- C4, witness. -/
theorem skip_gate_exact_witness :
    startsWithUnderscore (pStem (pname ["pkg", "mod.py"])) = false ∧
    ((fsExists [] (test_file_path ["tests"] false ["pkg", "mod.py"])
        && (!false && true)) || inCurrentTests [] (testFileName ["pkg", "mod.py"]))
      = false ∧
    (processFile (Cfg.mk true false false false false) (fun _ => GenOutcome.ok "t") []
        ["tests"] false (St.mk [] [] [] []) ["pkg", "mod.py"]).1.dispatched
      = [] ++ [["pkg", "mod.py"]] :=
  ⟨by decide, by decide,
    (skip_gate_exact (Cfg.mk true false false false false) (fun _ => GenOutcome.ok "t")
      [] ["tests"] false (St.mk [] [] [] []) ["pkg", "mod.py"] (by decide)).2 (by decide)⟩

/-- C5: a file whose stem begins with an underscore is never processed by
test generation, whatever the configuration (including `force`): a loop
iteration on it leaves the state untouched, and across a whole run no
generation request is ever dispatched for it. -/
theorem private_files_excluded (f : FPath)
    (h : startsWithUnderscore (pStem (pname f)) = true) :
    (∀ (cfg : Cfg) (gen : FPath → GenOutcome) (ct : List FPath) (td : FPath)
        (multi : Bool) (st : St), processFile cfg gen ct td multi st f = (st, false)) ∧
    (∀ (cfg : Cfg) (gen : FPath → GenOutcome) (ct : List FPath) (td : FPath)
        (multi : Bool) (files : List FPath) (st : St), f ∉ st.dispatched →
      f ∉ (runFiles cfg gen ct td multi files st).1.dispatched) := by
  constructor
  · intro cfg gen ct td multi st
    exact processFile_private cfg gen ct td multi st f h
  · intro cfg gen ct td multi files
    induction files with
    | nil => intro st hst; simpa [runFiles_nil] using hst
    | cons g rest ih =>
      intro st hst
      have hnd : f ∉ (processFile cfg gen ct td multi st g).1.dispatched := by
        by_cases hg : g = f
        · subst hg
          rw [processFile_private cfg gen ct td multi st g h]
          exact hst
        · rcases processFile_dispatched_cases cfg gen ct td multi st g with hd | hd <;>
            rw [hd]
          · exact hst
          · intro hmem
            rcases List.mem_append.mp hmem with h1 | h1
            · exact hst h1
            · exact hg (List.mem_singleton.mp h1).symm
      rcases hE : processFile cfg gen ct td multi st g with ⟨st1, b⟩
      rw [hE] at hnd
      cases b
      · rw [runFiles_cons_step _ _ _ _ _ _ _ _ _ hE]
        exact ih st1 hnd
      · rw [runFiles_cons_abort _ _ _ _ _ _ _ _ _ hE]
        exact hnd

/-- C5, witness. -/
theorem private_files_excluded_witness :
    startsWithUnderscore (pStem (pname ["pkg", "_mod.py"])) = true ∧
    processFile (Cfg.mk true false false true false) (fun _ => GenOutcome.ok "t") []
        ["tests"] false (St.mk [] [] [] []) ["pkg", "_mod.py"]
      = (St.mk [] [] [] [], false) ∧
    ["pkg", "_mod.py"] ∉
      (runFiles (Cfg.mk true false false true false) (fun _ => GenOutcome.ok "t") []
        ["tests"] false [["pkg", "_mod.py"], ["pkg", "mod.py"]]
        (St.mk [] [] [] [])).1.dispatched :=
  ⟨by decide,
    (private_files_excluded ["pkg", "_mod.py"] (by decide)).1
      (Cfg.mk true false false true false) (fun _ => GenOutcome.ok "t") [] ["tests"]
      false (St.mk [] [] [] []),
    (private_files_excluded ["pkg", "_mod.py"] (by decide)).2
      (Cfg.mk true false false true false) (fun _ => GenOutcome.ok "t") [] ["tests"]
      false [["pkg", "_mod.py"], ["pkg", "mod.py"]] (St.mk [] [] [] []) (by decide)⟩

/-- C6: when the generation call for a non-private, unskipped file raises
the invalid-output parse failure — if `empty=true` and `save=true`, a
zero-length file is written at the derived path, and a later run with
`force=false` over the resulting file system skips that file without
dispatching a request; if `empty=false`, nothing is written for the file
and the run moves on (no abort). -/
theorem empty_placeholder_semantics (cfg1 : Cfg) (gen1 : FPath → GenOutcome)
    (ct : List FPath) (td f : FPath) (multi : Bool) (st : St)
    (hpriv : startsWithUnderscore (pStem (pname f)) = false)
    (hskip : skip_condition cfg1 st.fs ct td f = false)
    (hgen : gen1 f = GenOutcome.invalidInput) :
    (cfg1.empty = true → cfg1.save = true →
      (processFile cfg1 gen1 ct td multi st f).1.fs
          = fsWrite st.fs (test_file_path td cfg1.group f) "" ∧
      (∀ (cfg2 : Cfg) (gen2 : FPath → GenOutcome) (multi2 : Bool) (st2 : St),
        cfg2.force = false →
        st2.fs = fsWrite st.fs (test_file_path td cfg1.group f) "" →
        processFile cfg2 gen2 (list_python_files st2.fs td) td multi2 st2 f
          = (st2, false))) ∧
    (cfg1.empty = false →
      (processFile cfg1 gen1 ct td multi st f).1.fs = st.fs ∧
      (processFile cfg1 gen1 ct td multi st f).2 = false) := by
  constructor
  · intro hempty hsave
    constructor
    · rw [processFile_invalid_empty_save cfg1 gen1 ct td multi st f hpriv hskip hgen
        hempty hsave]
    · intro cfg2 gen2 multi2 st2 hforce2 hst2
      apply processFile_skip cfg2 gen2 _ td multi2 st2 f hpriv
      rw [hst2]
      simp [skip_condition, inCurrentTests_after_write]
  · intro hempty
    rw [processFile_invalid_noempty cfg1 gen1 ct td multi st f hpriv hskip hgen hempty]
    exact ⟨rfl, rfl⟩

/-- C6, witness. -/
theorem empty_placeholder_semantics_witness :
    startsWithUnderscore (pStem (pname ["pkg", "sub", "mod.py"])) = false ∧
    skip_condition (Cfg.mk true false false false true) [] [] ["tests"]
        ["pkg", "sub", "mod.py"] = false ∧
    (processFile (Cfg.mk true false false false true)
        (fun _ => GenOutcome.invalidInput) [] ["tests"] false (St.mk [] [] [] [])
        ["pkg", "sub", "mod.py"]).1.fs
      = fsWrite [] (test_file_path ["tests"] false ["pkg", "sub", "mod.py"]) "" ∧
    processFile (Cfg.mk false false false false false) (fun _ => GenOutcome.ok "x")
        (list_python_files
          (fsWrite [] (test_file_path ["tests"] false ["pkg", "sub", "mod.py"]) "")
          ["tests"])
        ["tests"] false
        (St.mk (fsWrite [] (test_file_path ["tests"] false ["pkg", "sub", "mod.py"]) "")
          [] [] [])
        ["pkg", "sub", "mod.py"]
      = (St.mk (fsWrite [] (test_file_path ["tests"] false ["pkg", "sub", "mod.py"]) "")
          [] [] [], false) ∧
    (processFile (Cfg.mk true false false false false)
        (fun _ => GenOutcome.invalidInput) [] ["tests"] false (St.mk [] [] [] [])
        ["pkg", "sub", "mod.py"]).1.fs = [] :=
  ⟨by decide, by decide,
    ((empty_placeholder_semantics (Cfg.mk true false false false true)
        (fun _ => GenOutcome.invalidInput) [] ["tests"] ["pkg", "sub", "mod.py"] false
        (St.mk [] [] [] []) (by decide) (by decide) rfl).1 rfl rfl).1,
    ((empty_placeholder_semantics (Cfg.mk true false false false true)
        (fun _ => GenOutcome.invalidInput) [] ["tests"] ["pkg", "sub", "mod.py"] false
        (St.mk [] [] [] []) (by decide) (by decide) rfl).1 rfl rfl).2
      (Cfg.mk false false false false false) (fun _ => GenOutcome.ok "x") false
      (St.mk (fsWrite [] (test_file_path ["tests"] false ["pkg", "sub", "mod.py"]) "")
        [] [] []) rfl rfl,
    ((empty_placeholder_semantics (Cfg.mk true false false false false)
        (fun _ => GenOutcome.invalidInput) [] ["tests"] ["pkg", "sub", "mod.py"] false
        (St.mk [] [] [] []) (by decide) (by decide) rfl).2 rfl).1⟩

/-- C7: invalid-output failures are contained per file — in a three-file
saving run where the second file's generation returns invalid output and
the others succeed, all three are dispatched, the first and third are
written at their derived paths, exactly the second is reported as a
failure, and the run is not aborted. -/
theorem failure_containment (cfg : Cfg) (gen : FPath → GenOutcome) (ct : List FPath)
    (td f1 f2 f3 : FPath) (t1 t3 : String) (fs0 : FileSys)
    (hsave : cfg.save = true) (hempty : cfg.empty = false)
    (hp1 : startsWithUnderscore (pStem (pname f1)) = false)
    (hp2 : startsWithUnderscore (pStem (pname f2)) = false)
    (hp3 : startsWithUnderscore (pStem (pname f3)) = false)
    (hg1 : gen f1 = GenOutcome.ok t1) (hg2 : gen f2 = GenOutcome.invalidInput)
    (hg3 : gen f3 = GenOutcome.ok t3)
    (hs1 : skip_condition cfg fs0 ct td f1 = false)
    (hs2 : skip_condition cfg (fsWrite fs0 (test_file_path td cfg.group f1) t1) ct td f2
      = false)
    (hs3 : skip_condition cfg (fsWrite fs0 (test_file_path td cfg.group f1) t1) ct td f3
      = false) :
    runFiles cfg gen ct td true [f1, f2, f3] (St.mk fs0 [] [] [])
      = (St.mk
          (fsWrite (fsWrite fs0 (test_file_path td cfg.group f1) t1)
            (test_file_path td cfg.group f3) t3)
          [f1, f2, f3] [(f1, false), (f2, true), (f3, false)] [], false) := by
  rw [runFiles_cons_step _ _ _ _ _ _ _ _ _
    (processFile_ok cfg gen ct td true (St.mk fs0 [] [] []) f1 t1 hp1 hs1 hg1 hsave)]
  rw [runFiles_cons_step _ _ _ _ _ _ _ _ _
    (processFile_invalid_noempty cfg gen ct td true _ f2 hp2 hs2 hg2 hempty)]
  rw [runFiles_cons_step _ _ _ _ _ _ _ _ _
    (processFile_ok cfg gen ct td true _ f3 t3 hp3 hs3 hg3 hsave)]
  rw [runFiles_nil]
  simp

/-- C7, witness. -/
theorem failure_containment_witness :
    (Cfg.mk true false false false false).save = true ∧
    (Cfg.mk true false false false false).empty = false ∧
    startsWithUnderscore (pStem (pname ["a.py"])) = false ∧
    startsWithUnderscore (pStem (pname ["b.py"])) = false ∧
    startsWithUnderscore (pStem (pname ["c.py"])) = false ∧
    skip_condition (Cfg.mk true false false false false) [] [] ["tests"] ["a.py"]
      = false ∧
    runFiles (Cfg.mk true false false false false)
        (fun f => if f = ["b.py"] then GenOutcome.invalidInput else GenOutcome.ok "t")
        [] ["tests"] true [["a.py"], ["b.py"], ["c.py"]] (St.mk [] [] [] [])
      = (St.mk
          (fsWrite (fsWrite [] (test_file_path ["tests"] false ["a.py"]) "t")
            (test_file_path ["tests"] false ["c.py"]) "t")
          [["a.py"], ["b.py"], ["c.py"]]
          [(["a.py"], false), (["b.py"], true), (["c.py"], false)] [], false) :=
  ⟨rfl, rfl, by decide, by decide, by decide, by decide,
    failure_containment (Cfg.mk true false false false false)
      (fun f => if f = ["b.py"] then GenOutcome.invalidInput else GenOutcome.ok "t")
      [] ["tests"] ["a.py"] ["b.py"] ["c.py"] "t" "t" [] rfl rfl (by decide) (by decide)
      (by decide) (by decide) (by decide) (by decide) (by decide) (by decide)
      (by decide)⟩

/-- C8: any generation-call failure other than the invalid-output parse
failure propagates uncaught: when the service call for a reached, unskipped
file raises a service-level error, the run aborts immediately with only
that file dispatched — the remaining files (whatever they are) are never
examined, and there is no retry. -/
theorem service_error_aborts (cfg : Cfg) (gen : FPath → GenOutcome) (ct : List FPath)
    (td : FPath) (multi : Bool) (st : St) (f : FPath) (rest : List FPath)
    (hpriv : startsWithUnderscore (pStem (pname f)) = false)
    (hskip : skip_condition cfg st.fs ct td f = false)
    (hgen : gen f = GenOutcome.serviceError) :
    runFiles cfg gen ct td multi (f :: rest) st
      = ({ st with dispatched := st.dispatched ++ [f] }, true) :=
  runFiles_cons_abort _ _ _ _ _ _ _ _ _
    (processFile_service_error cfg gen ct td multi st f hpriv hskip hgen)

/-- C8, witness. -/
theorem service_error_aborts_witness :
    startsWithUnderscore (pStem (pname ["a.py"])) = false ∧
    skip_condition (Cfg.mk true false false false false) [] [] ["tests"] ["a.py"]
      = false ∧
    runFiles (Cfg.mk true false false false false) (fun _ => GenOutcome.serviceError)
        [] ["tests"] true [["a.py"], ["b.py"]] (St.mk [] [] [] [])
      = (St.mk [] ([] ++ [["a.py"]]) [] [], true) :=
  ⟨by decide, by decide,
    service_error_aborts (Cfg.mk true false false false false)
      (fun _ => GenOutcome.serviceError) [] ["tests"] true (St.mk [] [] [] [])
      ["a.py"] [["b.py"]] (by decide) (by decide) rfl⟩

/-- C9: the pretty option is display-only — in a saving run, the file
system produced by the loop is identical whether pretty is on or off, so
the persisted bytes never depend on the pretty flag. -/
theorem pretty_display_only (cfg : Cfg) (gen : FPath → GenOutcome) (ct : List FPath)
    (td : FPath) (multi : Bool) (files : List FPath) (st : St)
    (hsave : cfg.save = true) :
    (runFiles { cfg with pretty := true } gen ct td multi files st).1.fs
      = (runFiles { cfg with pretty := false } gen ct td multi files st).1.fs := by
  rw [runFiles_pretty cfg true false gen ct td multi files st hsave]

/-- C9, witness. -/
theorem pretty_display_only_witness :
    (Cfg.mk true false false false false).save = true ∧
    (runFiles { Cfg.mk true false false false false with pretty := true }
        (fun _ => GenOutcome.ok "t") [] ["tests"] false [["a.py"]]
        (St.mk [] [] [] [])).1.fs
      = (runFiles { Cfg.mk true false false false false with pretty := false }
          (fun _ => GenOutcome.ok "t") [] ["tests"] false [["a.py"]]
          (St.mk [] [] [] [])).1.fs :=
  ⟨rfl,
    pretty_display_only (Cfg.mk true false false false false)
      (fun _ => GenOutcome.ok "t") [] ["tests"] false [["a.py"]]
      (St.mk [] [] [] []) rfl⟩

/-- C10: invoking `docs` or `tests` on a target that is not a directory and
whose suffix is not `.py` fails with the assertion error before any file is
selected or processed: the command's result is the bare `AssertionError`,
with no run state, no skip report and no failure report. -/
theorem non_py_target_asserts (fs0 : FileSys) (cfg : Cfg) (gen : FPath → GenOutcome)
    (file td : FPath)
    (hsuffix : pSuffix (pname file) ≠ ".py") :
    testsCmd fs0 cfg gen false file td = Except.error "AssertionError" ∧
    docsSelect fs0 false file = Except.error "AssertionError" := by
  have hbeq : (pSuffix (pname file) == ".py") = false := by
    simp [hsuffix]
  constructor
  · simp [testsCmd, select_files, hbeq]
  · simp [docsSelect, select_files, hbeq]

/-- C10, witness. -/
theorem non_py_target_asserts_witness :
    pSuffix (pname ["pkg", "mod.txt"]) ≠ ".py" ∧
    testsCmd [] (Cfg.mk true false false false false) (fun _ => GenOutcome.ok "t")
        false ["pkg", "mod.txt"] ["tests"] = Except.error "AssertionError" ∧
    docsSelect [] false ["pkg", "mod.txt"] = Except.error "AssertionError" :=
  ⟨by decide,
    (non_py_target_asserts [] (Cfg.mk true false false false false)
      (fun _ => GenOutcome.ok "t") ["pkg", "mod.txt"] ["tests"] (by decide)).1,
    (non_py_target_asserts [] (Cfg.mk true false false false false)
      (fun _ => GenOutcome.ok "t") ["pkg", "mod.txt"] ["tests"] (by decide)).2⟩

end WriteThe
